import Mathlib

set_option maxRecDepth 100000

/-!
Verification of the job-search agent system (`src/job_search/job_search.py`).

The development shallowly embeds the concrete, deterministic parts of the
program: the Adzuna listings tool `search_jobs`, the resume extractor
`_parse_resume_direct` / `parse_resume`, the task-description assembly of
`setup_tasks`, and the log-file writes of `search_jobs` (method) and
`callback_function`.  External collaborators (the HTTP client, the two PDF
backends, `json.loads`, the process environment, the filesystem) are passed
in as explicit parameters; Python exceptions are modelled with `Except`.
-/

namespace JobSearch

/-- JSON values as produced by Python `json.loads` / `response.json()`.
Numbers are modelled as integers (no claim touches floats). -/
inductive Json where
  | null
  | bool (b : Bool)
  | num (n : Int)
  | str (s : String)
  | arr (elems : List Json)
  | obj (fields : List (String × Json))

/-- Python truthiness of a JSON value (`if x:`). -/
def truthy : Json → Bool
  | .null => false
  | .bool b => b
  | .num n => n != 0
  | .str s => s != ""
  | .arr xs => !xs.isEmpty
  | .obj kvs => !kvs.isEmpty

/-- Python exceptions that the embedded code can raise. -/
inductive PyExc where
  | keyError (key : String)
  | typeError (msg : String)
  | attributeError (msg : String)

/-- `str(e)` for an exception, as interpolated into f-strings. -/
def PyExc.message : PyExc → String
  | .keyError k => "\x27" ++ k ++ "\x27"
  | .typeError m => m
  | .attributeError m => m

/-- Python `x.get(key, default)`: succeeds on a dict, raises
`AttributeError` on every other value. -/
def dictGet (j : Json) (key : String) (default : Json) : Except PyExc Json :=
  match j with
  | .obj kvs => .ok ((kvs.lookup key).getD default)
  | .null => .error (.attributeError "\x27NoneType\x27 object has no attribute \x27get\x27")
  | .bool _ => .error (.attributeError "\x27bool\x27 object has no attribute \x27get\x27")
  | .num _ => .error (.attributeError "\x27int\x27 object has no attribute \x27get\x27")
  | .str _ => .error (.attributeError "\x27str\x27 object has no attribute \x27get\x27")
  | .arr _ => .error (.attributeError "\x27list\x27 object has no attribute \x27get\x27")

/-- Python string slice `s[:n]` for a non-negative bound: the first `n`
characters (code points) of `s`. -/
def pySlice (s : String) (n : Nat) : String := String.mk (s.toList.take n)

mutual

/-- Python `repr(x)` for a JSON value (string escaping inside nested
containers is simplified; no claim depends on it). -/
def py_repr : Json → String
  | .null => "None"
  | .bool true => "True"
  | .bool false => "False"
  | .num n => toString n
  | .str s => "\x27" ++ s ++ "\x27"
  | .arr xs => "[" ++ py_repr_elems xs ++ "]"
  | .obj kvs => "\x7b" ++ py_repr_fields kvs ++ "\x7d"

/-- Comma-separated `repr`s of the elements of a Python list. -/
def py_repr_elems : List Json → String
  | [] => ""
  | [x] => py_repr x
  | x :: xs => py_repr x ++ ", " ++ py_repr_elems xs

/-- Comma-separated `key: repr(value)` entries of a Python dict. -/
def py_repr_fields : List (String × Json) → String
  | [] => ""
  | [(k, v)] => "\x27" ++ k ++ "\x27" ++ ": " ++ py_repr v
  | (k, v) :: kvs => "\x27" ++ k ++ "\x27" ++ ": " ++ py_repr v ++ ", " ++ py_repr_fields kvs

end

/-- Python `str(x)` for a JSON value (as interpolated into the job f-string). -/
def py_str : Json → String
  | .str s => s
  | .null => "None"
  | .bool true => "True"
  | .bool false => "False"
  | .num n => toString n
  | .arr xs => py_repr (.arr xs)
  | .obj kvs => py_repr (.obj kvs)

/-- The `job_details` dict built for each record of the `results` array
(`search_jobs`, lines 138-145). `description` is the only field that the
code forces into a string. -/
structure JobDetails where
  title : Json
  company : Json
  location : Json
  salary : Json
  description : String
  url : Json

/-- The `description` entry of `job_details` (line 143):
`job.get('description', '')[:300] + '...' if job.get('description') else 'No description'`.
Python evaluates the condition `job.get('description')` first; when it is
truthy the slice-and-append runs (raising `TypeError` on non-string values),
otherwise the literal `'No description'` is used. -/
def description_excerpt (job : Json) : Except PyExc String :=
  match dictGet job "description" Json.null with
  | .error e => .error e
  | .ok cond =>
    if truthy cond then
      match cond with
      | Json.str s => .ok (pySlice s 300 ++ "...")
      | Json.num _ => .error (.typeError "\x27int\x27 object is not subscriptable")
      | Json.bool _ => .error (.typeError "\x27bool\x27 object is not subscriptable")
      | Json.arr _ => .error (.typeError "can only concatenate list (not \x22str\x22) to list")
      | Json.obj _ => .error (.typeError "unhashable type: \x27slice\x27")
      | Json.null => .ok "No description"
    else .ok "No description"

/-- Mapping of one record of the `results` array into `job_details`
(lines 138-145), in source evaluation order.  A raised exception is
propagated (it is caught by the `except Exception` handler of
`search_jobs` further up). -/
def map_job (job : Json) : Except PyExc JobDetails := do
  let title ← dictGet job "title" (Json.str "N/A")
  let company0 ← dictGet job "company" (Json.obj [])
  let company ← dictGet company0 "display_name" (Json.str "N/A")
  let location0 ← dictGet job "location" (Json.obj [])
  let location ← dictGet location0 "display_name" (Json.str "N/A")
  let salary ← dictGet job "salary_min" (Json.str "Not specified")
  let description ← description_excerpt job
  let url ← dictGet job "redirect_url" (Json.str "N/A")
  pure ⟨title, company, location, salary, description, url⟩

/-- The `formatted_job` f-string (lines 147-154). -/
def formatted_job (d : JobDetails) : String :=
  "\nTitle: " ++ py_str d.title ++
  "\nCompany: " ++ py_str d.company ++
  "\nLocation: " ++ py_str d.location ++
  "\nSalary: " ++ py_str d.salary ++
  "\nDescription: " ++ d.description ++
  "\nURL: " ++ py_str d.url ++
  "\n---"

/-- `jobs_data.get('results', [])` (line 137): `response.json()` can
return any JSON value; `.get` raises `AttributeError` unless it is a dict. -/
def jobs_data_results (body : Json) : Except PyExc Json :=
  dictGet body "results" (Json.arr [])

/-- Python `for job in results` over the value of the `results` key:
a list iterates its elements, a string its characters (as one-character
strings), a dict its keys; other values raise `TypeError`. -/
def results_iter : Json → Except PyExc (List Json)
  | .arr xs => .ok xs
  | .str s => .ok (s.toList.map (fun c => Json.str (String.mk [c])))
  | .obj kvs => .ok (kvs.map (fun kv => Json.str kv.1))
  | .null => .error (.typeError "\x27NoneType\x27 object is not iterable")
  | .num _ => .error (.typeError "\x27int\x27 object is not iterable")
  | .bool _ => .error (.typeError "\x27bool\x27 object is not iterable")

/-- The success-path body of `search_jobs` (lines 134-157) given the parsed
response `body`, together with the `except Exception` handler (line 163):
any exception raised while reshaping the results becomes the string
`"Unexpected error: {e}"`. -/
def process_jobs (body : Json) : String :=
  match (do
      let results ← jobs_data_results body
      let jobs ← results_iter results
      jobs.mapM map_job) with
  | .error e => "Unexpected error: " ++ e.message
  | .ok ds =>
    if ds.isEmpty then "No jobs found for the specified criteria."
    else String.intercalate "\n" (ds.map formatted_job)

/-- Outcome of the `requests.get` / `raise_for_status` / `response.json()`
sequence (lines 132-134), matched by the `except` clauses at lines 159-164. -/
inductive HttpOutcome where
  | httpError (msg : String)
  | requestError (msg : String)
  | otherError (msg : String)
  | success (body : Json)

/-- Dispatch of the HTTP outcome: the three `except` clauses of
`search_jobs` (lines 159-164) and the success path. -/
def handle_response : HttpOutcome → String
  | .httpError m => "HTTP Error: " ++ m
  | .requestError m => "Request Error: " ++ m
  | .otherError m => "Unexpected error: " ++ m
  | .success body => process_jobs body

/-- Truthiness of `os.getenv(var)`: unset (`None`) and the empty string are
both falsy. -/
def envTruthy (env : String → Option String) (v : String) : Bool :=
  match env v with
  | none => false
  | some s => s != ""

/-- `required_vars` (line 91). -/
def required_vars : List String := ["OPENAI_API_KEY", "ADZUNA_APP_ID", "ADZUNA_API_KEY"]

/-- `missing_vars` (line 92): the required variables whose `os.getenv` is falsy. -/
def missing_vars (env : String → Option String) : List String :=
  required_vars.filter (fun v => !envTruthy env v)

/-- The configuration error message assembled at lines 95-101. -/
def missing_vars_error (missing : List String) : String :=
  "‚ùå Missing required environment variables in .env file:\n" ++
  String.join (missing.map (fun v => "   - " ++ v ++ "\n")) ++
  "\nüìù Create a .env file in your project directory with:\n" ++
  "OPENAI_API_KEY=your_openai_api_key_here\n" ++
  "ADZUNA_APP_ID=your_adzuna_app_id_here\n" ++
  "ADZUNA_API_KEY=your_adzuna_api_key_here"

/-- The schema error returned by the `except (json.JSONDecodeError, KeyError)`
clause (lines 108-111), whitespace exactly as in the triple-quoted source string. -/
def schema_error : String :=
  "Error: The tool accepts input in JSON format with the \n" ++
  "                following schema: \x7b\x27role\x27: \x27<role>\x27, \x27location\x27: \x27<location>\x27, \x27num_results\x27: <number>\x7d. \n" ++
  "                Ensure to format the input accordingly."

/-- The `search_jobs` tool (lines 78-164).  `env` is the process
environment, `loads` the outcome of `json.loads(input_json)` (`.error` =
`JSONDecodeError`), `http` the outcome of the remote call.  The result is
`.ok` with the returned string, or `.error` with an exception that escapes
the tool: the first `try` only catches `JSONDecodeError` and `KeyError`, so
subscripting a non-dict JSON value raises an uncaught `TypeError`. -/
def search_jobs (env : String → Option String) (loads : Except String Json)
    (http : HttpOutcome) : Except PyExc String :=
  let missing := missing_vars env
  if !missing.isEmpty then .ok (missing_vars_error missing)
  else
    match loads with
    | .error _ => .ok schema_error
    | .ok input_data =>
      match input_data with
      | .obj kvs =>
        match kvs.lookup "role" with
        | none => .ok schema_error
        | some _role =>
          match kvs.lookup "location" with
          | none => .ok schema_error
          | some _location =>
            if !envTruthy env "ADZUNA_APP_ID" || !envTruthy env "ADZUNA_API_KEY" then
              .ok "Error: Please set ADZUNA_APP_ID and ADZUNA_API_KEY in your .env file."
            else
              .ok (handle_response http)
      | .null => .error (.typeError "\x27NoneType\x27 object is not subscriptable")
      | .bool _ => .error (.typeError "\x27bool\x27 object is not subscriptable")
      | .num _ => .error (.typeError "\x27int\x27 object is not subscriptable")
      | .str _ => .error (.typeError "string indices must be integers")
      | .arr _ => .error (.typeError "list indices must be integers or slices, not str")

/-- Python `'needle' in hay` substring test. -/
def contains_sub (needle hay : String) : Bool :=
  hay.toList.tails.any (fun t => needle.toList.isPrefixOf t)

/-- Python `not text.strip()`: the string consists only of whitespace. -/
def is_blank (s : String) : Bool := s.toList.all Char.isWhitespace

/-- The not-found message of the resume parser (lines 44-45 / 207-208). -/
def not_found_error (file_path : String) : String :=
  "Error: Resume file not found at " ++ file_path ++ ". Please check the file path."

/-- The success marker prefixed to parsed resume text (lines 57 / 220),
byte-exact including the mojibake glyphs of the source. -/
def success_marker : String := "‚úÖ Resume parsed successfully!"

/-- The success return value of the resume parser. -/
def success_result (text : String) : String :=
  success_marker ++ "\n\nResume Content:\n" ++ text

/-- The pdfplumber loop (lines 213-217): each page's `extract_text()` is
`None` or a string; pages whose text is falsy (`None` or `""`) are skipped,
the rest are appended followed by `"\n"`. -/
def plumber_text (pages : List (Option String)) : String :=
  pages.foldl (fun acc p =>
    match p with
    | some t => if t == "" then acc else acc ++ t ++ "\n"
    | none => acc) ""

/-- The PyPDF2 loop (lines 229-230): every page's `extract_text()` result is
appended followed by `"\n"`, with no skipping of empty pages. -/
def pypdf_text (pages : List String) : String :=
  pages.foldl (fun acc t => acc ++ t ++ "\n") ""

/-- Modelled from the spec (§4.1 / claim C3's reading of the secondary
backend): the same per-page concatenation strategy as the primary backend,
i.e. skipping pages whose extraction yields no text. This definition exists
only to be compared with `pypdf_text`, which is what the code does. -/
def pypdf_text_skipping (pages : List String) : String :=
  pages.foldl (fun acc t => if t == "" then acc else acc ++ t ++ "\n") ""

/-- `_parse_resume_direct` (lines 205-238); the tool `parse_resume`
(lines 33-75) has the identical body.  `file_found` is
`os.path.exists(file_path)`; `plumber` is the outcome of opening and reading
all pages with pdfplumber (`.error` = any exception in the `with` block);
`pypdf` likewise for PyPDF2.  If the pdfplumber text is only whitespace the
`with` block falls through without returning and the PyPDF2 fallback runs. -/
def _parse_resume_direct (file_found : Bool)
    (plumber : Except String (List (Option String)))
    (pypdf : Except String (List String))
    (file_path : String) : String :=
  if !file_found then not_found_error file_path
  else
    let primary : Option String :=
      match plumber with
      | .error _ => none
      | .ok pages =>
        let text := plumber_text pages
        if !is_blank text then some (success_result text) else none
    match primary with
    | some r => r
    | none =>
      match pypdf with
      | .error e => "Error: Failed to parse resume PDF. " ++ e
      | .ok pages =>
        let text := pypdf_text pages
        if !is_blank text then success_result text
        else "Error: Could not extract text from PDF. The file might be image-based or corrupted."

/-- The spec-side variant of `_parse_resume_direct` in which the secondary
backend skips empty pages like the primary one (claim C3); differs from the
source only in using `pypdf_text_skipping`. -/
def parse_resume_direct_spec (file_found : Bool)
    (plumber : Except String (List (Option String)))
    (pypdf : Except String (List String))
    (file_path : String) : String :=
  if !file_found then not_found_error file_path
  else
    let primary : Option String :=
      match plumber with
      | .error _ => none
      | .ok pages =>
        let text := plumber_text pages
        if !is_blank text then some (success_result text) else none
    match primary with
    | some r => r
    | none =>
      match pypdf with
      | .error e => "Error: Failed to parse resume PDF. " ++ e
      | .ok pages =>
        let text := pypdf_text_skipping pages
        if !is_blank text then success_result text
        else "Error: Could not extract text from PDF. The file might be image-based or corrupted."

/-- The `parse_resume` method (lines 193-203): `self.resume_content` after
the call — the parser result when it contains the success marker, `""`
otherwise. -/
def parse_resume (file_found : Bool)
    (plumber : Except String (List (Option String)))
    (pypdf : Except String (List String))
    (file_path : String) : String :=
  let r := _parse_resume_direct file_found plumber pypdf file_path
  if contains_sub success_marker r then r else ""

/-- The state `__init__` (lines 170-191) leaves behind that later stages read. -/
structure SystemState where
  resume_path : Option String
  resume_content : String

/-- `__init__` (lines 170-191): raises `ValueError` when `OPENAI_API_KEY`
is falsy, otherwise parses the resume (when a path was given) and sets up
agents, tasks and crew — none of which can raise. -/
def init_system (env : String → Option String) (file_found : String → Bool)
    (plumber : String → Except String (List (Option String)))
    (pypdf : String → Except String (List String))
    (resume_path : Option String) : Except String SystemState :=
  if !envTruthy env "OPENAI_API_KEY" then
    .error "Please set OPENAI_API_KEY in your .env file"
  else
    let content :=
      match resume_path with
      | none => ""
      | some p => parse_resume (file_found p) (plumber p) (pypdf p) p
    .ok ⟨resume_path, content⟩

/-- `job_search_task.description` (lines 304-311), whitespace exactly as in
the triple-quoted source string (it is a plain string, not an f-string:
no resume splice). -/
def job_search_task_description : String :=
  "Search for current job openings based on the specified role and location. \n" ++
  "            Use the Job Search tool with the following parameters:\n" ++
  "            - Find 5-10 relevant positions\n" ++
  "            - Focus on quality over quantity\n" ++
  "            - Include detailed job descriptions and requirements\n" ++
  "            - Highlight key qualifications and skills needed\n" ++
  "            \n" ++
  "            Format your search as JSON: \x7b\x27role\x27: \x27<role>\x27, \x27location\x27: \x27<location>\x27, \x27num_results\x27: <number>\x7d"

/-- `skills_analysis_task.description` (lines 319-331) as a function of
`self.resume_content`. -/
def skills_analysis_description (resume_content : String) : String :=
  "Analyze the job openings and create a PERSONALIZED skills assessment:\n" ++
  "            \n" ++
  "            1. Compare the candidate\x27s current skills (from resume) with job requirements\n" ++
  "            2. Identify SPECIFIC skill gaps and strengths\n" ++
  "            3. Categorize skills as: Already Have, Need to Improve, Need to Learn\n" ++
  "            4. Provide targeted recommendations including:\n" ++
  "               - Specific courses/certifications for identified gaps\n" ++
  "               - How to better highlight existing skills\n" ++
  "               - Timeline for skill development based on current level\n" ++
  "               - Which skills to prioritize for maximum impact\n" ++
  "            5. Create a personalized learning roadmap\n" ++
  "            \n" ++
  "            " ++
  (if resume_content != "" then
    "Use the candidate resume content for context: " ++ resume_content
  else "No resume provided - provide general recommendations.")

/-- `interview_prep_task.description` (lines 339-349). -/
def interview_prep_description (resume_content : String) : String :=
  "Create a PERSONALIZED interview preparation strategy:\n" ++
  "            \n" ++
  "            1. Generate role-specific questions tailored to the candidate\x27s background\n" ++
  "            2. Create STAR method examples using the candidate\x27s actual experience\n" ++
  "            3. Identify potential interview challenges based on resume gaps or career changes\n" ++
  "            4. Provide specific talking points to highlight candidate\x27s unique strengths\n" ++
  "            5. Address potential concerns employers might have\n" ++
  "            6. Create customized salary negotiation strategy based on experience level\n" ++
  "            7. Develop elevator pitch based on candidate\x27s background\n" ++
  "            \n" ++
  "            " ++
  (if resume_content != "" then
    "Base recommendations on candidate resume: " ++ resume_content
  else "Provide general interview preparation advice.")

/-- `career_strategy_task.description` (lines 357-367). -/
def career_strategy_description (resume_content : String) : String :=
  "Develop a PERSONALIZED career strategy plan:\n" ++
  "            \n" ++
  "            1. Analyze current resume and suggest specific improvements for target roles\n" ++
  "            2. Create LinkedIn optimization strategy based on existing profile content\n" ++
  "            3. Identify networking opportunities relevant to candidate\x27s industry/background\n" ++
  "            4. Suggest specific portfolio projects based on current skills and target roles\n" ++
  "            5. Create personal branding strategy that highlights unique value proposition\n" ++
  "            6. Develop application strategy tailored to candidate\x27s experience level\n" ++
  "            7. Provide specific action items with timeline for career advancement\n" ++
  "            \n" ++
  "            " ++
  (if resume_content != "" then
    "Base all recommendations on candidate background: " ++ resume_content
  else "Provide general career strategy advice.")

/-- The single fallback sentence asserted by claim C4 (em-dash, no trailing
period), to be searched for in the assembled descriptions. -/
def claimed_fallback : String := "No resume provided — provide general recommendations"

/-- The fields of a CrewAI `TaskOutput` that `callback_function` reads. -/
structure TaskOutput where
  agent : String
  description : String
  result : String

/-- One write to the filesystem: mode `"w"` truncates, mode `"a"` appends.
Several `file.write` calls under one `open` are one operation with the
concatenated content. -/
inductive FileOp where
  | write (path content : String)
  | append (path content : String)

/-- The filesystem as a map from path to content. -/
def FileSys := String → Option String

/-- Effect of one file operation. -/
def apply_op (fs : FileSys) : FileOp → FileSys
  | .write p c => fun q => if q = p then some c else fs q
  | .append p c => fun q => if q = p then some ((fs p).getD "" ++ c) else fs q

/-- Effect of a sequence of file operations. -/
def run_ops (ops : List FileOp) (fs : FileSys) : FileSys :=
  ops.foldl apply_op fs

/-- The report header written with mode `"w"` at the start of the
`search_jobs` method (lines 421-428). -/
def report_header (role location date_str : String) (resume_used : Bool) : String :=
  "PERSONALIZED Job Search Analysis Report\n" ++
  "Role: " ++ role ++ "\n" ++
  "Location: " ++ location ++ "\n" ++
  "Date: " ++ date_str ++ "\n" ++
  "Resume Analyzed: " ++ (if resume_used then "Yes" else "No") ++ "\n" ++
  String.mk (List.replicate 50 '=') ++ "\n\n"

/-- The section `callback_function` appends for one completed task
(lines 243-245). -/
def callback_section (o : TaskOutput) : String :=
  "=== " ++ o.agent ++ " - " ++ o.description ++ " ===\n" ++ o.result ++ "\n\n"

/-- All writes to `task_output.txt` during one `search_jobs` (method)
invocation: the mode-`"w"` header write (lines 421-428), then one append
per completed task from `callback_function` (lines 240-248) — these are the
only two places in the program that touch the file. -/
def search_run_ops (role location date_str : String) (resume_used : Bool)
    (outputs : List TaskOutput) : List FileOp :=
  FileOp.write "task_output.txt" (report_header role location date_str resume_used) ::
  outputs.map (fun o => FileOp.append "task_output.txt" (callback_section o))

/-- Concatenation of the appended sections in completion order. -/
def concat_sections (secs : List String) : String :=
  secs.foldr (· ++ ·) ""

/-! ## Shared lemmas -/

theorem pySlice_length (s : String) (n : Nat) :
    (pySlice s n).length = min n s.length := by
  have h : (pySlice s n).length = (s.toList.take n).length := rfl
  rw [h, List.length_take]
  rfl

theorem string_mk_toList (s : String) : String.mk s.toList = s := rfl

theorem pySlice_of_le (s : String) (n : Nat) (h : s.length ≤ n) : pySlice s n = s := by
  unfold pySlice
  rw [List.take_of_length_le, string_mk_toList]
  exact h

/-- On an object, `description_excerpt` of a non-empty string description
is the 300-character slice followed by the ellipsis. -/
theorem description_excerpt_str (kvs : List (String × Json)) (s : String)
    (h : kvs.lookup "description" = some (Json.str s)) (hs : s ≠ "") :
    description_excerpt (Json.obj kvs) = .ok (pySlice s 300 ++ "...") := by
  unfold description_excerpt dictGet
  simp [h, truthy, hs]

/-- On an object, `description_excerpt` of a missing or empty description
is the literal `"No description"`. -/
theorem description_excerpt_nodesc (kvs : List (String × Json))
    (h : kvs.lookup "description" = none ∨ kvs.lookup "description" = some (Json.str "")) :
    description_excerpt (Json.obj kvs) = .ok "No description" := by
  rcases h with h | h <;> simp [description_excerpt, dictGet, h, truthy]

/-- Characterization of `map_job` on an object whose `company` and
`location` values are dicts and whose description entry evaluates. -/
theorem map_job_obj (kvs cf lf : List (String × Json)) (dval : String)
    (hc : (kvs.lookup "company").getD (Json.obj []) = Json.obj cf)
    (hl : (kvs.lookup "location").getD (Json.obj []) = Json.obj lf)
    (hd : description_excerpt (Json.obj kvs) = .ok dval) :
    map_job (Json.obj kvs) = .ok
      ⟨(kvs.lookup "title").getD (Json.str "N/A"),
       (cf.lookup "display_name").getD (Json.str "N/A"),
       (lf.lookup "display_name").getD (Json.str "N/A"),
       (kvs.lookup "salary_min").getD (Json.str "Not specified"),
       dval,
       (kvs.lookup "redirect_url").getD (Json.str "N/A")⟩ := by
  unfold map_job
  simp only [dictGet, hc, hl, hd, bind, Except.bind, pure, Except.pure]

/-- A successful `map_job` carries the value of `description_excerpt` in
its `description` field. -/
theorem map_job_description (j : Json) (d : JobDetails) (h : map_job j = .ok d) :
    description_excerpt j = .ok d.description := by
  unfold map_job at h
  simp only [bind, Except.bind, pure, Except.pure] at h
  repeat' split at h
  all_goals try simp_all
  all_goals (subst h; rfl)

/-! ## Claim theorems -/

/-- C1 (counterexample): the record `{"description": "hi"}` has a
description of length 2 ≤ 300, yet its mapped excerpt is `"hi..."`, not the
unchanged string `"hi"` — line 143 appends `'...'` to every truthy
description, because the conditional expression binds as
`(job.get('description', '')[:300] + '...') if job.get('description') else 'No description'`. -/
theorem c1_counterexample :
    map_job (Json.obj [("description", Json.str "hi")]) =
      .ok ⟨Json.str "N/A", Json.str "N/A", Json.str "N/A", Json.str "Not specified",
           "hi...", Json.str "N/A"⟩ ∧
    ("hi..." : String) ≠ "hi" :=
  ⟨rfl, by decide⟩

/-- C1 (amended): for every record whose `description` is a non-empty
string `s`, the mapped `descriptionExcerpt` is always the first 300
characters of `s` followed by the literal `"..."` — in particular, for
`s.length ≤ 300` it equals `s ++ "..."`, not `s` unchanged. -/
theorem c1_description_excerpt (kvs : List (String × Json)) (s : String)
    (hdesc : kvs.lookup "description" = some (Json.str s)) (hne : s ≠ "") :
    description_excerpt (Json.obj kvs) = .ok (pySlice s 300 ++ "...") ∧
    (∀ d, map_job (Json.obj kvs) = .ok d → d.description = pySlice s 300 ++ "...") ∧
    (s.length ≤ 300 → pySlice s 300 ++ "..." = s ++ "...") := by
  refine ⟨description_excerpt_str kvs s hdesc hne, ?_, ?_⟩
  · intro d hd
    have h := map_job_description _ _ hd
    rw [description_excerpt_str kvs s hdesc hne] at h
    exact (Except.ok.injEq _ _ ▸ h).symm
  · intro hle
    rw [pySlice_of_le s 300 hle]

/-- C1 (witness): the amended theorem applied to the record
`{"description": "hi"}`. -/
theorem c1_description_excerpt_witness :
    description_excerpt (Json.obj [("description", Json.str "hi")]) = .ok "hi..." ∧
    (∀ d, map_job (Json.obj [("description", Json.str "hi")]) = .ok d →
      d.description = "hi...") ∧
    ("hi".length ≤ 300 → ("hi..." : String) = "hi" ++ "...") :=
  c1_description_excerpt [("description", Json.str "hi")] "hi" rfl (by decide)

/-- C2 (counterexample): a record whose `company` field is the string
`"Acme"` (not an object) does not map with placeholders — the `.get` chain
at line 140 raises `AttributeError`, and the whole call then returns the
catch-all `"Unexpected error: ..."` string instead of any listing. -/
theorem c2_counterexample :
    map_job (Json.obj [("company", Json.str "Acme")]) =
      .error (PyExc.attributeError "\x27str\x27 object has no attribute \x27get\x27") ∧
    process_jobs (Json.obj [("results", Json.arr [Json.obj [("company", Json.str "Acme")]])]) =
      "Unexpected error: \x27str\x27 object has no attribute \x27get\x27" :=
  ⟨rfl, rfl⟩

/-- C2 (amended): for every record that is a JSON object whose `company`
and `location` fields, when present, are objects, and whose `description`
is absent or a string, the mapping succeeds and every missing field is
replaced by its literal placeholder (`title`/`company`/`location`/`url` via
`"N/A"`, `salary` via `"Not specified"`, `description` via
`"No description"`); in particular a record with missing
`company.display_name` maps to company `"N/A"`.  (Records of other shapes
can abort the whole mapping, see the counterexample.) -/
theorem c2_defaults (kvs cf lf : List (String × Json))
    (hc : (kvs.lookup "company").getD (Json.obj []) = Json.obj cf)
    (hl : (kvs.lookup "location").getD (Json.obj []) = Json.obj lf)
    (hd : kvs.lookup "description" = none ∨ ∃ s, kvs.lookup "description" = some (Json.str s)) :
    ∃ d, map_job (Json.obj kvs) = .ok d ∧
      d.title = (kvs.lookup "title").getD (Json.str "N/A") ∧
      d.company = (cf.lookup "display_name").getD (Json.str "N/A") ∧
      d.location = (lf.lookup "display_name").getD (Json.str "N/A") ∧
      d.salary = (kvs.lookup "salary_min").getD (Json.str "Not specified") ∧
      d.url = (kvs.lookup "redirect_url").getD (Json.str "N/A") ∧
      (kvs.lookup "description" = none → d.description = "No description") := by
  have hexc : ∃ dv, description_excerpt (Json.obj kvs) = .ok dv ∧
      (kvs.lookup "description" = none → dv = "No description") := by
    rcases hd with h | ⟨s, h⟩
    · exact ⟨"No description", description_excerpt_nodesc kvs (Or.inl h), fun _ => rfl⟩
    · by_cases hs : s = ""
      · subst hs
        exact ⟨"No description", description_excerpt_nodesc kvs (Or.inr h), fun _ => rfl⟩
      · refine ⟨pySlice s 300 ++ "...", description_excerpt_str kvs s h hs, fun hnone => ?_⟩
        rw [hnone] at h
        exact absurd h (by simp)
  obtain ⟨dv, hdv, hdvn⟩ := hexc
  exact ⟨_, map_job_obj kvs cf lf dv hc hl hdv, rfl, rfl, rfl, rfl, rfl, hdvn⟩

/-- C2 (witness): the amended theorem applied to the empty record `{}` —
every field missing, every placeholder used. -/
theorem c2_defaults_witness :
    ∃ d, map_job (Json.obj []) = .ok d ∧
      d.title = Json.str "N/A" ∧
      d.company = Json.str "N/A" ∧
      d.location = Json.str "N/A" ∧
      d.salary = Json.str "Not specified" ∧
      d.url = Json.str "N/A" ∧
      (([] : List (String × Json)).lookup "description" = none →
        d.description = "No description") :=
  c2_defaults [] [] [] rfl rfl (Or.inl rfl)

/-- C6: for every record whose mapping succeeds, a non-empty string
description yields an excerpt of length at most 303 (at most 300 characters
plus the 3-character ellipsis), and an absent or empty description yields
the literal `"No description"`. -/
theorem c6_excerpt_invariant (kvs : List (String × Json)) (d : JobDetails)
    (hok : map_job (Json.obj kvs) = .ok d) :
    (∀ s, kvs.lookup "description" = some (Json.str s) → s ≠ "" →
      d.description.length ≤ 303) ∧
    ((kvs.lookup "description" = none ∨ kvs.lookup "description" = some (Json.str "")) →
      d.description = "No description") := by
  have hdesc := map_job_description _ _ hok
  constructor
  · intro s hs hne
    rw [description_excerpt_str kvs s hs hne] at hdesc
    have h : d.description = pySlice s 300 ++ "..." :=
      (Except.ok.injEq _ _ ▸ hdesc).symm
    rw [h, String.length_append, pySlice_length]
    have h1 : min 300 s.length ≤ 300 := Nat.min_le_left _ _
    have h2 : ("..." : String).length = 3 := rfl
    omega
  · intro h
    rw [description_excerpt_nodesc kvs h] at hdesc
    exact (Except.ok.injEq _ _ ▸ hdesc).symm

/-- C6 (witness): the invariant applied to the record
`{"description": "hi"}`, whose mapping succeeds. -/
theorem c6_excerpt_invariant_witness :
    (∀ s, ([("description", Json.str "hi")] : List (String × Json)).lookup "description" =
        some (Json.str s) → s ≠ "" →
      (⟨Json.str "N/A", Json.str "N/A", Json.str "N/A", Json.str "Not specified",
        "hi...", Json.str "N/A"⟩ : JobDetails).description.length ≤ 303) ∧
    ((([("description", Json.str "hi")] : List (String × Json)).lookup "description" = none ∨
      ([("description", Json.str "hi")] : List (String × Json)).lookup "description" =
        some (Json.str "")) →
      (⟨Json.str "N/A", Json.str "N/A", Json.str "N/A", Json.str "Not specified",
        "hi...", Json.str "N/A"⟩ : JobDetails).description = "No description") :=
  c6_excerpt_invariant [("description", Json.str "hi")] _ rfl

/-- C5: whenever any subset of the three required credentials is unset (or
empty), `search_jobs` returns the configuration error built from exactly the
missing ones, and the `"   - VAR"` enumeration lines of that message name
exactly the missing credentials: the bullet line for a required variable
occurs in the message iff that variable is missing (the trailing template
section of the message mentions all three names, but only missing variables
get an enumeration line). -/
theorem c5_missing_credentials (env : String → Option String)
    (loads : Except String Json) (http : HttpOutcome)
    (h : missing_vars env ≠ []) :
    search_jobs env loads http = .ok (missing_vars_error (missing_vars env)) ∧
    ∀ v ∈ required_vars,
      (("   - " ++ v ++ "\n").toList <:+: (missing_vars_error (missing_vars env)).toList ↔
        v ∈ missing_vars env) := by
  constructor
  · have hne : (missing_vars env).isEmpty = false := by
      cases hM : missing_vars env
      · exact absurd hM h
      · rfl
    unfold search_jobs
    simp [hne]
  · intro v hv
    simp only [required_vars, List.mem_cons, List.not_mem_nil, or_false] at hv
    cases h1 : envTruthy env "OPENAI_API_KEY" <;>
      cases h2 : envTruthy env "ADZUNA_APP_ID" <;>
        cases h3 : envTruthy env "ADZUNA_API_KEY" <;>
          simp only [missing_vars, required_vars, List.filter, h1, h2, h3, Bool.not_true,
            Bool.not_false] at h ⊢ <;>
          first
          | exact absurd rfl h
          | (rcases hv with rfl | rfl | rfl <;> decide)

/-- C5 (witness): with all three credentials unset, the tool returns the
configuration error enumerating all three, and the `ADZUNA_APP_ID` bullet
line occurs in it. -/
theorem c5_missing_credentials_witness :
    search_jobs (fun _ => none) (.error "x") (.success Json.null) =
      .ok (missing_vars_error ["OPENAI_API_KEY", "ADZUNA_APP_ID", "ADZUNA_API_KEY"]) ∧
    (("   - ADZUNA_APP_ID\n").toList <:+:
      (missing_vars_error ["OPENAI_API_KEY", "ADZUNA_APP_ID", "ADZUNA_API_KEY"]).toList) := by
  have h := c5_missing_credentials (fun _ => none) (.error "x") (.success Json.null) (by decide)
  exact ⟨h.1, (h.2 "ADZUNA_APP_ID" (by decide)).mpr (by decide)⟩

/-- C8: a successful response whose `results` array is empty makes
`search_jobs` return the literal `"No jobs found for the specified
criteria."`, which is non-empty and does not begin like any of the error
strings the tool can produce (`"‚ùå ..."`, `"Error..."`, `"HTTP Error:"`,
`"Request Error:"`, `"Unexpected error:"`). -/
theorem c8_no_jobs_found (env : String → Option String) (loads : Except String Json)
    (http : HttpOutcome) (kvs bkvs : List (String × Json)) (r l : Json)
    (h1 : envTruthy env "OPENAI_API_KEY" = true)
    (h2 : envTruthy env "ADZUNA_APP_ID" = true)
    (h3 : envTruthy env "ADZUNA_API_KEY" = true)
    (h4 : loads = .ok (Json.obj kvs))
    (h5 : kvs.lookup "role" = some r)
    (h6 : kvs.lookup "location" = some l)
    (h7 : http = .success (Json.obj bkvs))
    (h8 : bkvs.lookup "results" = some (Json.arr [])) :
    search_jobs env loads http = .ok "No jobs found for the specified criteria." ∧
    ("No jobs found for the specified criteria." : String) ≠ "" ∧
    ¬ (("Error" : String).toList <+:
        ("No jobs found for the specified criteria." : String).toList) ∧
    ¬ (("HTTP Error:" : String).toList <+:
        ("No jobs found for the specified criteria." : String).toList) ∧
    ¬ (("Request Error:" : String).toList <+:
        ("No jobs found for the specified criteria." : String).toList) ∧
    ¬ (("Unexpected error:" : String).toList <+:
        ("No jobs found for the specified criteria." : String).toList) ∧
    ¬ (("‚ùå" : String).toList <+:
        ("No jobs found for the specified criteria." : String).toList) := by
  refine ⟨?_, by decide, by decide, by decide, by decide, by decide, by decide⟩
  subst h4 h7
  have hm : missing_vars env = [] := by
    simp [missing_vars, required_vars, h1, h2, h3]
  unfold search_jobs
  simp [hm, h5, h6, h2, h3, handle_response, process_jobs, jobs_data_results, dictGet, h8,
    results_iter]
  rfl

/-- C8 (witness): the theorem applied to a fully concrete environment,
input and empty-results response. -/
theorem c8_no_jobs_found_witness :
    search_jobs (fun _ => some "x")
      (.ok (Json.obj [("role", Json.str "a"), ("location", Json.str "b")]))
      (.success (Json.obj [("results", Json.arr [])])) =
      .ok "No jobs found for the specified criteria." ∧
    ("No jobs found for the specified criteria." : String) ≠ "" ∧
    ¬ (("Error" : String).toList <+:
        ("No jobs found for the specified criteria." : String).toList) ∧
    ¬ (("HTTP Error:" : String).toList <+:
        ("No jobs found for the specified criteria." : String).toList) ∧
    ¬ (("Request Error:" : String).toList <+:
        ("No jobs found for the specified criteria." : String).toList) ∧
    ¬ (("Unexpected error:" : String).toList <+:
        ("No jobs found for the specified criteria." : String).toList) ∧
    ¬ (("‚ùå" : String).toList <+:
        ("No jobs found for the specified criteria." : String).toList) :=
  c8_no_jobs_found _ _ _ _ _ _ _ rfl rfl rfl rfl rfl rfl rfl rfl

/-- C10 (counterexample): with all credentials present, the input string
`"null"` is valid JSON (`json.loads` yields `None`), and `input_data['role']`
at line 105 then raises a `TypeError` that neither the
`except (json.JSONDecodeError, KeyError)` clause nor anything else catches:
the tool raises instead of returning an error string. -/
theorem c10_counterexample :
    search_jobs (fun _ => some "x") (.ok Json.null) (.success (Json.obj [])) =
      .error (PyExc.typeError "\x27NoneType\x27 object is not subscriptable") := rfl

/-- C10 (amended): for every input whose JSON parse fails, and for every
input that parses to a JSON object (whatever keys it has), the tool returns
a descriptive string and raises nothing; inputs parsing to non-object JSON
values are the exception (see the counterexample). -/
theorem c10_error_string (env : String → Option String) (loads : Except String Json)
    (http : HttpOutcome)
    (h : (∃ m, loads = .error m) ∨ ∃ kvs, loads = .ok (Json.obj kvs)) :
    ∃ s, search_jobs env loads http = .ok s := by
  unfold search_jobs
  cases hm : (missing_vars env).isEmpty with
  | false => exact ⟨missing_vars_error (missing_vars env), by simp [hm]⟩
  | true =>
    rcases h with ⟨m, rfl⟩ | ⟨kvs, rfl⟩
    · exact ⟨schema_error, by simp [hm]⟩
    · cases hr : kvs.lookup "role" with
      | none => exact ⟨schema_error, by simp [hm, hr]⟩
      | some r =>
        cases hl : kvs.lookup "location" with
        | none => exact ⟨schema_error, by simp [hm, hr, hl]⟩
        | some l =>
          cases he : (!envTruthy env "ADZUNA_APP_ID" || !envTruthy env "ADZUNA_API_KEY") with
          | true =>
            exact ⟨"Error: Please set ADZUNA_APP_ID and ADZUNA_API_KEY in your .env file.",
              by simp [hm, hr, hl, he]⟩
          | false => exact ⟨handle_response http, by simp [hm, hr, hl, he]⟩

/-- C10 (witness): the amended theorem applied to an unparseable input. -/
theorem c10_error_string_witness :
    ∃ s, search_jobs (fun _ => none)
      (.error "Expecting value: line 1 column 1 (char 0)")
      (.success Json.null) = .ok s :=
  c10_error_string _ _ _ (Or.inl ⟨_, rfl⟩)

/-- C3 (counterexample): with the resume file present, the primary backend
yielding no pages, and the secondary backend extracting page texts
`["", "abc"]`, the code produces `"\nabc\n"` — the empty page contributes a
bare newline via `text += page.extract_text() + "\n"` (line 230) — while a
secondary backend using the claimed same-strategy-with-skipping would
produce `"abc\n"`: the secondary backend does not skip pages that yield no
text. -/
theorem c3_counterexample :
    _parse_resume_direct true (.ok []) (.ok ["", "abc"]) "resume.pdf" =
      success_result "\nabc\n" ∧
    parse_resume_direct_spec true (.ok []) (.ok ["", "abc"]) "resume.pdf" =
      success_result "abc\n" ∧
    success_result "\nabc\n" ≠ success_result "abc\n" :=
  ⟨rfl, rfl, by decide⟩

/-- C3 (amended): the extractor returns the primary (pdfplumber) text —
newline-joined, empty pages skipped — whenever it is not all whitespace;
exactly otherwise (primary threw, yielded no pages, or only whitespace) it
runs the secondary (PyPDF2) backend, which joins every page's text with a
newline *without* skipping empty pages; if the secondary throws or its text
is only whitespace, an error string is returned (no exception) and the
stored resume content is empty.  (For the secondary-throws branch the
stored-empty conclusion carries the side condition that the exception
message does not smuggle the parse success marker into the error string —
true of any real PDF-library exception.) -/
theorem c3_fallback (plumber : Except String (List (Option String)))
    (pypdf : Except String (List String)) (path : String) :
    (∀ pages, plumber = .ok pages → is_blank (plumber_text pages) = false →
      _parse_resume_direct true plumber pypdf path = success_result (plumber_text pages)) ∧
    ((∀ pages, plumber = .ok pages → is_blank (plumber_text pages) = true) →
      (∀ e, pypdf = .error e →
        _parse_resume_direct true plumber pypdf path =
          "Error: Failed to parse resume PDF. " ++ e ∧
        (contains_sub success_marker ("Error: Failed to parse resume PDF. " ++ e) = false →
          parse_resume true plumber pypdf path = "")) ∧
      (∀ pages2, pypdf = .ok pages2 → is_blank (pypdf_text pages2) = false →
        _parse_resume_direct true plumber pypdf path =
          success_result (pypdf_text pages2)) ∧
      (∀ pages2, pypdf = .ok pages2 → is_blank (pypdf_text pages2) = true →
        _parse_resume_direct true plumber pypdf path =
          "Error: Could not extract text from PDF. The file might be image-based or corrupted." ∧
        parse_resume true plumber pypdf path = "")) := by
  constructor
  · intro pages hp hb
    subst hp
    unfold _parse_resume_direct
    simp [hb]
  · intro hall
    have hstep : _parse_resume_direct true plumber pypdf path =
        (match pypdf with
          | .error e => "Error: Failed to parse resume PDF. " ++ e
          | .ok pages2 =>
            if !is_blank (pypdf_text pages2) then success_result (pypdf_text pages2)
            else "Error: Could not extract text from PDF. The file might be image-based or corrupted.") := by
      cases plumber with
      | error e => rfl
      | ok pages =>
        unfold _parse_resume_direct
        simp [hall pages rfl]
    refine ⟨?_, ?_, ?_⟩
    · intro e he
      have herr : _parse_resume_direct true plumber pypdf path =
          "Error: Failed to parse resume PDF. " ++ e := by
        rw [hstep, he]
      refine ⟨herr, fun hm => ?_⟩
      unfold parse_resume
      rw [herr]
      simp [hm]
    · intro pages2 hp2 hb2
      rw [hstep, hp2]
      simp [hb2]
    · intro pages2 hp2 hb2
      have herr : _parse_resume_direct true plumber pypdf path =
          "Error: Could not extract text from PDF. The file might be image-based or corrupted." := by
        rw [hstep, hp2]
        simp [hb2]
      refine ⟨herr, ?_⟩
      unfold parse_resume
      rw [herr]
      rfl

/-- C3 (witness): primary yields no pages.  With the secondary extracting
one empty page, the extractor finds only whitespace, returns the
extraction-failure string and stores empty resume content; with the
secondary throwing `"boom"`, it returns the failed-parse error string and
likewise stores empty resume content. -/
theorem c3_fallback_witness :
    (_parse_resume_direct true (.ok []) (.ok [""]) "resume.pdf" =
      "Error: Could not extract text from PDF. The file might be image-based or corrupted." ∧
    parse_resume true (.ok []) (.ok [""]) "resume.pdf" = "") ∧
    (_parse_resume_direct true (.ok []) (.error "boom") "resume.pdf" =
      "Error: Failed to parse resume PDF. " ++ "boom" ∧
    parse_resume true (.ok []) (.error "boom") "resume.pdf" = "") := by
  constructor
  · exact ((c3_fallback (.ok []) (.ok [""]) "resume.pdf").2
      (by intro pages h; injection h with h; subst h; decide)).2.2
      [""] rfl (by decide)
  · have h := ((c3_fallback (.ok []) (.error "boom") "resume.pdf").2
      (by intro pages h; injection h with h; subst h; decide)).1 "boom" rfl
    exact ⟨h.1, h.2 (by decide)⟩

/-- C4 (counterexample): with no resume text, none of the four assembled
task descriptions contains the claimed single literal sentence
`"No resume provided — provide general recommendations"` (em-dash): the
skills task uses a hyphen and trailing period, the interview-prep and
career-strategy tasks use entirely different sentences, and the search task
has no fallback at all. -/
theorem c4_counterexample :
    contains_sub claimed_fallback (skills_analysis_description "") = false ∧
    contains_sub claimed_fallback (interview_prep_description "") = false ∧
    contains_sub claimed_fallback (career_strategy_description "") = false ∧
    contains_sub claimed_fallback job_search_task_description = false :=
  ⟨rfl, rfl, rfl, rfl⟩

/-- C4 (amended): with no resume text, the skills task description contains
the literal `"No resume provided - provide general recommendations."`
(hyphen, trailing period), the interview-prep task instead contains
`"Provide general interview preparation advice."`, the career-strategy task
`"Provide general career strategy advice."`, and the search task
description contains no resume fallback (it never mentions a resume). -/
theorem c4_fallback_sentences :
    contains_sub "No resume provided - provide general recommendations."
      (skills_analysis_description "") = true ∧
    contains_sub "Provide general interview preparation advice."
      (interview_prep_description "") = true ∧
    contains_sub "Provide general career strategy advice."
      (career_strategy_description "") = true ∧
    contains_sub "No resume provided" job_search_task_description = false ∧
    contains_sub "resume" job_search_task_description = false :=
  ⟨rfl, rfl, rfl, rfl, rfl⟩

/-- C7: for a path not referencing an existing file, the parser returns the
deterministic not-found error string (it is a total function — no exception
escapes), the stored resume content ends up empty, system construction
still succeeds, and the three later task descriptions fall back to their
non-personalized sentences.  (`hmark`: the path does not smuggle the parse
success marker into the error message — true of any real path.) -/
theorem c7_missing_file (env : String → Option String) (file_found : String → Bool)
    (plumber : String → Except String (List (Option String)))
    (pypdf : String → Except String (List String)) (path : String)
    (henv : envTruthy env "OPENAI_API_KEY" = true)
    (hff : file_found path = false)
    (hmark : contains_sub success_marker (not_found_error path) = false) :
    _parse_resume_direct (file_found path) (plumber path) (pypdf path) path =
      not_found_error path ∧
    parse_resume (file_found path) (plumber path) (pypdf path) path = "" ∧
    init_system env file_found plumber pypdf (some path) = .ok ⟨some path, ""⟩ ∧
    contains_sub "No resume provided - provide general recommendations."
      (skills_analysis_description "") = true ∧
    contains_sub "Provide general interview preparation advice."
      (interview_prep_description "") = true ∧
    contains_sub "Provide general career strategy advice."
      (career_strategy_description "") = true := by
  have h1 : _parse_resume_direct (file_found path) (plumber path) (pypdf path) path =
      not_found_error path := by
    unfold _parse_resume_direct
    simp [hff]
  have h2 : parse_resume (file_found path) (plumber path) (pypdf path) path = "" := by
    unfold parse_resume
    rw [h1]
    simp [hmark]
  refine ⟨h1, h2, ?_, rfl, rfl, rfl⟩
  unfold init_system
  simp [henv, h2]

/-- C7 (witness): the theorem at a fully concrete environment and
filesystem in which `resume.pdf` does not exist. -/
theorem c7_missing_file_witness :
    _parse_resume_direct false (.ok []) (.ok []) "resume.pdf" =
      not_found_error "resume.pdf" ∧
    parse_resume false (.ok []) (.ok []) "resume.pdf" = "" ∧
    init_system (fun _ => some "k") (fun _ => false) (fun _ => .ok []) (fun _ => .ok [])
      (some "resume.pdf") = .ok ⟨some "resume.pdf", ""⟩ ∧
    contains_sub "No resume provided - provide general recommendations."
      (skills_analysis_description "") = true ∧
    contains_sub "Provide general interview preparation advice."
      (interview_prep_description "") = true ∧
    contains_sub "Provide general career strategy advice."
      (career_strategy_description "") = true :=
  c7_missing_file (fun _ => some "k") (fun _ => false) (fun _ => .ok []) (fun _ => .ok [])
    "resume.pdf" rfl rfl (by rfl)

/-- Appending a list of sections to an existing file concatenates them
there and leaves every other path unchanged. -/
theorem run_appends (p : String) (secs : List String) (fs : FileSys) (c : String)
    (hc : fs p = some c) :
    run_ops (secs.map (fun s => FileOp.append p s)) fs =
      fun q => if q = p then some (c ++ concat_sections secs) else fs q := by
  induction secs generalizing fs c with
  | nil =>
    funext q
    by_cases hq : q = p <;> simp [run_ops, concat_sections, hq, hc]
  | cons s rest ih =>
    funext q
    have hfold : run_ops ((s :: rest).map (fun s => FileOp.append p s)) fs =
        run_ops (rest.map (fun s => FileOp.append p s)) (apply_op fs (.append p s)) := rfl
    rw [hfold, ih (apply_op fs (.append p s)) (c ++ s) (by simp [apply_op, hc])]
    by_cases hq : q = p <;> simp [apply_op, hq, hc, concat_sections, String.append_assoc]

/-- C9: during one `search_jobs` (method) run, the output file is first
truncated and rewritten with the header (role, location, date, resume
flag), then receives exactly one appended `agent - description` section per
completed stage, in completion order; nothing else touches the filesystem:
the final content of `task_output.txt` is the header followed by the
concatenated sections, and every other path is unchanged. -/
theorem c9_log_file (role location date_str : String) (resume_used : Bool)
    (outputs : List TaskOutput) (fs : FileSys) :
    run_ops (search_run_ops role location date_str resume_used outputs) fs "task_output.txt" =
      some (report_header role location date_str resume_used ++
        concat_sections (outputs.map callback_section)) ∧
    ∀ q, q ≠ "task_output.txt" →
      run_ops (search_run_ops role location date_str resume_used outputs) fs q = fs q := by
  have hops : run_ops (search_run_ops role location date_str resume_used outputs) fs =
      run_ops ((outputs.map callback_section).map
          (fun s => FileOp.append "task_output.txt" s))
        (apply_op fs (.write "task_output.txt"
          (report_header role location date_str resume_used))) := by
    simp [search_run_ops, run_ops, List.map_map]
    rfl
  rw [hops, run_appends "task_output.txt" (outputs.map callback_section) _
    (report_header role location date_str resume_used) (by simp [apply_op])]
  constructor
  · simp
  · intro q hq
    simp [apply_op, hq]

/-- C9 (witness): one concrete run over an empty filesystem with one
completed stage: the log holds header plus that section; another file stays
absent. -/
theorem c9_log_file_witness :
    run_ops (search_run_ops "Senior Data Scientist" "New York" "2025-01-01 00:00:00" true
        [⟨"Senior Job Search Specialist", "task desc", "stage output"⟩])
      (fun _ => none) "task_output.txt" =
      some (report_header "Senior Data Scientist" "New York" "2025-01-01 00:00:00" true ++
        concat_sections
          [callback_section ⟨"Senior Job Search Specialist", "task desc", "stage output"⟩]) ∧
    run_ops (search_run_ops "Senior Data Scientist" "New York" "2025-01-01 00:00:00" true
        [⟨"Senior Job Search Specialist", "task desc", "stage output"⟩])
      (fun _ => none) "other.txt" = none := by
  have h := c9_log_file "Senior Data Scientist" "New York" "2025-01-01 00:00:00" true
    [⟨"Senior Job Search Specialist", "task desc", "stage output"⟩] (fun _ => none)
  exact ⟨h.1, h.2 "other.txt" (by decide)⟩

end JobSearch
